import Mathlib

/-!
Verification development for the weather_parser repository.

Shallow embedding of the concurrent collection-and-dedup-gated persistence
pipeline: the data source client (shared/async_parser.py), the freshness gate
and persistence operations (shared/database.py), the pipeline coordinator
(airflow/dags/async_weather_dag.py) and the celery save task
(celery_worker/tasks.py).

Modelling conventions:
- timestamps are rationals (seconds on the UTC timeline).  The Python code
  normalises naive datetimes by assuming UTC, so both naive and aware stored
  timestamps denote the same point on this single timeline.
- the database table is a list of WeatherData rows; a SQL read that may throw
  is modelled as an Except value handed to the reader; a commit that may throw
  is modelled by a commitOk flag (SQLAlchemy rolls the session back on error,
  so the failing branch leaves the list unchanged, as rollback does).
- Python round(x, 1) is round-half-to-even at one decimal, modelled exactly
  on rationals.
- log message strings (Russian text with interpolated values) are abbreviated
  to short English markers; no claim depends on their contents.
-/

/-- Python round-half-to-even (bankers) rounding of a rational to an integer. -/
def roundHalfEven (q : ℚ) : ℤ :=
  if q - Int.floor q < 1/2 then Int.floor q
  else if (1:ℚ)/2 < q - Int.floor q then Int.floor q + 1
  else if Int.floor q % 2 = 0 then Int.floor q else Int.floor q + 1

/-- Python round(x, 1): round to one decimal place, ties to even. -/
def round1 (q : ℚ) : ℚ := (roundHalfEven (q * 10) : ℚ) / 10

/-- A row of the weather_data table (class WeatherData in shared/database.py).
humidity, pressure, wind_speed, clouds are nullable columns; created_at is
nullable (server default now(), but a row can in principle carry NULL). -/
structure WeatherData where
  id : ℕ
  city : String
  temperature : ℚ
  humidity : Option ℤ
  pressure : Option ℤ
  description : String
  wind_speed : Option ℚ
  clouds : Option ℤ
  created_at : Option ℚ
deriving Repr, DecidableEq

/-- Strict "comes first under ORDER BY created_at DESC" (PostgreSQL places
NULLs first under DESC). -/
def strictlyLater (a b : Option ℚ) : Bool :=
  match a, b with
  | none, none => false
  | none, some _ => true
  | some _, none => false
  | some x, some y => decide (y < x)

/-- Pick the first row of the filtered list under ORDER BY created_at DESC
(keeping the earlier row on ties, which the SQL leaves unspecified). -/
def pickLatest : Option WeatherData → List WeatherData → Option WeatherData
  | acc, [] => acc
  | none, r :: rest => pickLatest (some r) rest
  | some a, r :: rest =>
      pickLatest (if strictlyLater r.created_at a.created_at then some r else some a) rest

/-- The query inside get_last_weather_record: rows for the city, ordered by
created_at descending, first row or none. -/
def lastRecordIn (db : List WeatherData) (city : String) : Option WeatherData :=
  pickLatest none (db.filter (fun r => r.city == city))

/-- get_last_weather_record (shared/database.py:92-105): the query outcome is
passed in as an Except; on an exception the function logs and returns None. -/
def get_last_weather_record (query : Except String (Option WeatherData)) :
    Option WeatherData :=
  match query with
  | Except.ok r => r
  | Except.error _ => none

/-- is_data_fresh (shared/database.py:108-138).  Returns
(is_fresh, last_record, age_minutes).  When there is no record, or the record
has no created_at, returns (False, None, None).  Otherwise the age in minutes
is (now - created_at)/60 and the data is fresh iff age < min_age_minutes. -/
def is_data_fresh (query : Except String (Option WeatherData)) (now : ℚ)
    (min_age_minutes : ℚ) : Bool × Option WeatherData × Option ℚ :=
  match get_last_weather_record query with
  | none => (false, none, none)
  | some r =>
    match r.created_at with
    | none => (false, none, none)
    | some t =>
      ((decide ((now - t) / 60 < min_age_minutes)), some r, some ((now - t) / 60))

/-- The MIN_AGE_MINUTES environment default used when min_age_minutes is None. -/
def MIN_AGE_MINUTES_ENV : ℚ := 30

/-- The result dict of save_weather_data. -/
structure SaveResult where
  saved : Bool
  skipped : Bool
  reason : String
  age_minutes : Option ℚ
  message : String
deriving Repr, DecidableEq

/-- save_weather_data (shared/database.py:141-221).  State-passing embedding:
takes the current table, the clock, the id the store would assign, returns the
new table and the result dict.  commitOk models whether session.commit()
succeeds; on failure the session is rolled back (table unchanged) and the
error dict is returned.  The freshness check reads the table successfully
(its internal exception handling is covered by get_last_weather_record). -/
def save_weather_data (db : List WeatherData) (now : ℚ) (nextId : ℕ)
    (city : String) (temperature : ℚ) (humidity : Option ℤ) (pressure : Option ℤ)
    (description : String) (wind_speed : Option ℚ) (clouds : Option ℤ)
    (min_age_minutes : Option ℚ) (skip_if_fresh : Bool) (commitOk : Bool) :
    List WeatherData × SaveResult :=
  let minAge := min_age_minutes.getD MIN_AGE_MINUTES_ENV
  let fresh := is_data_fresh (Except.ok (lastRecordIn db city)) now minAge
  if skip_if_fresh && fresh.1 then
    (db, { saved := false, skipped := true, reason := "skipped_fresh",
           age_minutes := fresh.2.2, message := "skipped: last record is fresh" })
  else if commitOk then
    (db ++ [{ id := nextId, city := city, temperature := round1 temperature,
              humidity := humidity, pressure := pressure,
              description := description, wind_speed := wind_speed,
              clouds := clouds, created_at := some now }],
     { saved := true, skipped := false, reason := "saved",
       age_minutes := none, message := "saved to db" })
  else
    (db, { saved := false, skipped := false, reason := "error",
           age_minutes := none, message := "error while saving" })

/-- get_recent_weather (shared/database.py:223-236): last `limit` rows by
created_at descending; on a read error returns the empty list. -/
def get_recent_weather (query : Except String (List WeatherData)) (limit : ℕ) :
    List WeatherData :=
  match query with
  | Except.ok rows => rows.take limit
  | Except.error _ => []

/-- The fields of the OpenWeatherMap JSON body that fetch_city_weather reads:
main.temp, main.humidity, main.pressure, weather[0].description, wind.speed,
clouds.all.  wind.speed and clouds.all are read with dict.get and so may be
missing. -/
structure OWMResponse where
  main_temp : ℚ
  main_humidity : ℤ
  main_pressure : ℤ
  weather0_description : String
  wind_speed : Option ℚ
  clouds_all : Option ℤ
deriving Repr, DecidableEq

/-- The dict built by fetch_city_weather on a 200 response. -/
structure FetchedWeather where
  city : String
  temperature : ℚ
  humidity : ℤ
  pressure : ℤ
  description : String
  wind_speed : ℚ
  clouds : ℤ
  timestamp : ℚ
deriving Repr, DecidableEq

/-- The possible outcomes of the HTTP GET issued by fetch_city_weather. -/
inductive HttpOutcome where
  | ok : OWMResponse → HttpOutcome
  | unauthorized : HttpOutcome
  | httpError : ℕ → String → HttpOutcome
  | timeout : HttpOutcome
  | exn : String → HttpOutcome
deriving Repr, DecidableEq

/-- fetch_city_weather (shared/async_parser.py:10-48).  On status 200 builds
the weather dict, with wind.speed and clouds.all defaulting to 0 when missing
(dict.get(key, 0)); every other outcome (401, other status, timeout, any other
exception) prints a message and returns None. -/
def fetch_city_weather (city : String) (now : ℚ) (resp : HttpOutcome) :
    Option FetchedWeather :=
  match resp with
  | HttpOutcome.ok data =>
      some { city := city,
             temperature := round1 data.main_temp,
             humidity := data.main_humidity,
             pressure := data.main_pressure,
             description := data.weather0_description,
             wind_speed := data.wind_speed.getD 0,
             clouds := data.clouds_all.getD 0,
             timestamp := now }
  | HttpOutcome.unauthorized => none
  | HttpOutcome.httpError _ _ => none
  | HttpOutcome.timeout => none
  | HttpOutcome.exn _ => none

/-- fetch_all_cities_async (shared/async_parser.py:50-78).  One
fetch_city_weather task per city (net gives the HTTP outcome per city), gathered
and then filtered: exceptions cannot reach the gather results because
fetch_city_weather catches everything, so the filter keeps exactly the
non-None dicts, in input order.  Failures are only printed. -/
def fetch_all_cities_async (cities : List String) (now : ℚ)
    (net : String → HttpOutcome) : List FetchedWeather :=
  (cities.map (fun c => fetch_city_weather c now (net c))).filterMap id

/-- The per-entity loop of save_results_to_db
(airflow/dags/async_weather_dag.py:48-71): skip None entries, otherwise call
save_weather_data with min_age_minutes=30, skip_if_fresh=True, threading the
table state; count saved and skipped.  Commits succeed (a commit failure is
already converted to an error dict inside save_weather_data, leaving both
counters untouched, so the except branch of the loop is unreachable here). -/
def saveLoop (now : ℚ) : List (Option FetchedWeather) → List WeatherData → ℕ →
    List WeatherData × ℕ × ℕ
  | [], db, _ => (db, 0, 0)
  | none :: rest, db, nid => saveLoop now rest db nid
  | some w :: rest, db, nid =>
    let out := save_weather_data db now nid w.city w.temperature (some w.humidity)
      (some w.pressure) w.description (some w.wind_speed) (some w.clouds)
      (some 30) true true
    let acc := saveLoop now rest out.1 (nid + 1)
    (acc.1, ((if out.2.saved then 1 else 0) + acc.2.1,
             (if out.2.skipped then 1 else 0) + acc.2.2))

/-- save_results_to_db (airflow/dags/async_weather_dag.py:37-73).  The xcom
pull may yield None or a list; `if not weather_data_list: return 0`, otherwise
run the loop and return saved_count only (skipped_count is printed, not
returned). -/
def save_results_to_db (weather_data_list : Option (List (Option FetchedWeather)))
    (db : List WeatherData) (now : ℚ) (nid : ℕ) : ℕ :=
  match weather_data_list with
  | none => 0
  | some l => if l.isEmpty then 0 else (saveLoop now l db nid).2.1

/-- A Python value as it appears in the result dicts. -/
inductive PyVal where
  | bool : Bool → PyVal
  | str : String → PyVal
  | rat : ℚ → PyVal
  | pynone : PyVal
deriving Repr, DecidableEq

/-- The dict literal save_weather_data returns, as key-value pairs.  Its
truthiness in Python is non-emptiness. -/
def save_result_dict (r : SaveResult) : List (String × PyVal) :=
  [("saved", PyVal.bool r.saved),
   ("skipped", PyVal.bool r.skipped),
   ("reason", PyVal.str r.reason),
   ("age_minutes", match r.age_minutes with
                   | none => PyVal.pynone
                   | some a => PyVal.rat a),
   ("message", PyVal.str r.message)]

/-- The fields of the payload that save_weather_task reads. -/
structure CeleryWeatherInput where
  city : String
  temperature : ℚ
  humidity : ℤ
  pressure : ℤ
  description : String
deriving Repr, DecidableEq

/-- save_weather_task (celery_worker/tasks.py:26-49).  Calls save_weather_data
with only the five payload fields (wind_speed, clouds, min_age_minutes left at
their defaults None, skip_if_fresh at its default True) and then branches on
the truthiness of the returned dict: a non-empty dict means status success. -/
def save_weather_task (db : List WeatherData) (now : ℚ) (nid : ℕ)
    (wd : CeleryWeatherInput) (commitOk : Bool) : List (String × PyVal) :=
  let success := save_result_dict
    (save_weather_data db now nid wd.city wd.temperature (some wd.humidity)
      (some wd.pressure) wd.description none none none true commitOk).2
  if success.isEmpty then
    [("status", PyVal.str "error"), ("city", PyVal.str wd.city)]
  else
    [("status", PyVal.str "success"), ("city", PyVal.str wd.city)]

/-- The row the saveLoop write branch appends for a fetched observation. -/
def savedRecord (now : ℚ) (nid : ℕ) (w : FetchedWeather) : WeatherData :=
  { id := nid, city := w.city, temperature := round1 w.temperature,
    humidity := some w.humidity, pressure := some w.pressure,
    description := w.description, wind_speed := some w.wind_speed,
    clouds := some w.clouds, created_at := some now }

/-- The rows a run of saveLoop appends when every observation is accepted. -/
def insertedRecords (now : ℚ) : ℕ → List FetchedWeather → List WeatherData
  | _, [] => []
  | nid, w :: rest => savedRecord now nid w :: insertedRecords now (nid + 1) rest

/-- A sample fetched observation used to instantiate theorems with
hypotheses at a concrete input. -/
def sampleFetched : FetchedWeather :=
  { city := "Moscow,ru", temperature := 10, humidity := 50, pressure := 1000,
    description := "clear sky", wind_speed := 0, clouds := 0, timestamp := 0 }

/-! ## Helper lemmas -/

theorem lastRecordIn_of_filter_nil (db : List WeatherData) (c : String)
    (h : db.filter (fun r => r.city == c) = []) : lastRecordIn db c = none := by
  simp [lastRecordIn, h, pickLatest]

theorem lastRecordIn_of_filter_single (db : List WeatherData) (c : String)
    (r : WeatherData) (h : db.filter (fun x => x.city == c) = [r]) :
    lastRecordIn db c = some r := by
  simp [lastRecordIn, h, pickLatest]

theorem save_weather_data_skips (db : List WeatherData) (now : ℚ) (nid : ℕ)
    (city desc : String) (temp : ℚ) (hum pres : Option ℤ) (ws : Option ℚ)
    (cl : Option ℤ) (m : Option ℚ)
    (h : (is_data_fresh (Except.ok (lastRecordIn db city)) now
        (m.getD MIN_AGE_MINUTES_ENV)).1 = true) :
    save_weather_data db now nid city temp hum pres desc ws cl m true true =
      (db, { saved := false, skipped := true, reason := "skipped_fresh",
             age_minutes := (is_data_fresh (Except.ok (lastRecordIn db city)) now
               (m.getD MIN_AGE_MINUTES_ENV)).2.2,
             message := "skipped: last record is fresh" }) := by
  simp [save_weather_data, h]

theorem save_weather_data_inserts (db : List WeatherData) (now : ℚ) (nid : ℕ)
    (city desc : String) (temp : ℚ) (hum pres : Option ℤ) (ws : Option ℚ)
    (cl : Option ℤ) (m : Option ℚ)
    (h : (is_data_fresh (Except.ok (lastRecordIn db city)) now
        (m.getD MIN_AGE_MINUTES_ENV)).1 = false) :
    save_weather_data db now nid city temp hum pres desc ws cl m true true =
      (db ++ [{ id := nid, city := city, temperature := round1 temp,
                humidity := hum, pressure := pres, description := desc,
                wind_speed := ws, clouds := cl, created_at := some now }],
       { saved := true, skipped := false, reason := "saved",
         age_minutes := none, message := "saved to db" }) := by
  simp [save_weather_data, h]

theorem save_weather_data_inserts_obs (db : List WeatherData) (now : ℚ)
    (nid : ℕ) (w : FetchedWeather)
    (h : (is_data_fresh (Except.ok (lastRecordIn db w.city)) now 30).1 = false) :
    save_weather_data db now nid w.city w.temperature (some w.humidity)
        (some w.pressure) w.description (some w.wind_speed) (some w.clouds)
        (some 30) true true =
      (db ++ [savedRecord now nid w],
       { saved := true, skipped := false, reason := "saved",
         age_minutes := none, message := "saved to db" }) := by
  rw [save_weather_data_inserts db now nid w.city w.description w.temperature
    (some w.humidity) (some w.pressure) (some w.wind_speed) (some w.clouds)
    (some 30) (by simpa using h)]
  rfl

theorem save_weather_data_skips_obs (db : List WeatherData) (now : ℚ)
    (nid : ℕ) (w : FetchedWeather)
    (h : (is_data_fresh (Except.ok (lastRecordIn db w.city)) now 30).1 = true) :
    save_weather_data db now nid w.city w.temperature (some w.humidity)
        (some w.pressure) w.description (some w.wind_speed) (some w.clouds)
        (some 30) true true =
      (db, { saved := false, skipped := true, reason := "skipped_fresh",
             age_minutes := (is_data_fresh (Except.ok (lastRecordIn db w.city))
               now 30).2.2,
             message := "skipped: last record is fresh" }) := by
  rw [save_weather_data_skips db now nid w.city w.description w.temperature
    (some w.humidity) (some w.pressure) (some w.wind_speed) (some w.clouds)
    (some 30) (by simpa using h)]
  rfl

theorem insertedRecords_filter_of_not_mem (obs : List FetchedWeather) :
    ∀ (now : ℚ) (nid : ℕ) (c : String), c ∉ obs.map (fun w => w.city) →
      (insertedRecords now nid obs).filter (fun r => r.city == c) = [] := by
  induction obs with
  | nil => intro now nid c _; rfl
  | cons w rest ih =>
    intro now nid c hc
    simp only [List.map_cons, List.mem_cons, not_or] at hc
    obtain ⟨hne, hrest⟩ := hc
    have hbeq : ((savedRecord now nid w).city == c) = false := by
      simp [savedRecord]
      exact fun he => hne he.symm
    simp only [insertedRecords, List.filter_cons, hbeq]
    exact ih now (nid + 1) c hrest

theorem insertedRecords_filter_single (obs : List FetchedWeather) :
    ∀ (now : ℚ) (nid : ℕ) (w : FetchedWeather), w ∈ obs →
      (obs.map (fun x => x.city)).Nodup →
      ∃ r, (insertedRecords now nid obs).filter (fun x => x.city == w.city) = [r] ∧
        r.created_at = some now := by
  induction obs with
  | nil => intro now nid w hw _; cases hw
  | cons v rest ih =>
    intro now nid w hw hnd
    simp only [List.map_cons, List.nodup_cons] at hnd
    obtain ⟨hv, hndrest⟩ := hnd
    rcases List.mem_cons.mp hw with rfl | hmem
    · refine ⟨savedRecord now nid w, ?_, rfl⟩
      have hbeq : ((savedRecord now nid w).city == w.city) = true := by
        simp [savedRecord]
      simp only [insertedRecords, List.filter_cons, hbeq, if_true]
      rw [insertedRecords_filter_of_not_mem rest now (nid + 1) w.city hv]
    · have hne : w.city ≠ v.city := by
        intro he
        exact hv (he ▸ List.mem_map.mpr ⟨w, hmem, rfl⟩)
      have hbeq : ((savedRecord now nid v).city == w.city) = false := by
        simp [savedRecord]
        exact fun he => hne he.symm
      simp only [insertedRecords, List.filter_cons, hbeq]
      exact ih now (nid + 1) w hmem hndrest

theorem saveLoop_no_prior (obs : List FetchedWeather) :
    ∀ (db : List WeatherData) (now : ℚ) (nid : ℕ),
      (obs.map (fun w => w.city)).Nodup →
      (∀ w ∈ obs, db.filter (fun r => r.city == w.city) = []) →
      saveLoop now (obs.map some) db nid =
        (db ++ insertedRecords now nid obs, (obs.length, 0)) := by
  induction obs with
  | nil => intro db now nid _ _; simp [saveLoop, insertedRecords]
  | cons w rest ih =>
    intro db now nid hnd hnone
    simp only [List.map_cons, List.nodup_cons] at hnd
    obtain ⟨hv, hndrest⟩ := hnd
    have hlast : lastRecordIn db w.city = none :=
      lastRecordIn_of_filter_nil db w.city (hnone w (List.mem_cons_self w rest))
    have hfresh : (is_data_fresh (Except.ok (lastRecordIn db w.city)) now
        30).1 = false := by
      rw [hlast]; rfl
    have hstep : saveLoop now ((w :: rest).map some) db nid =
        (let out := save_weather_data db now nid w.city w.temperature
          (some w.humidity) (some w.pressure) w.description
          (some w.wind_speed) (some w.clouds) (some 30) true true
        let acc := saveLoop now (rest.map some) out.1 (nid + 1)
        (acc.1, ((if out.2.saved then 1 else 0) + acc.2.1,
                 (if out.2.skipped then 1 else 0) + acc.2.2))) := rfl
    rw [hstep, save_weather_data_inserts_obs db now nid w hfresh]
    dsimp only
    have hnone2 : ∀ w2 ∈ rest, (db ++ [savedRecord now nid w]).filter
        (fun r => r.city == w2.city) = [] := by
      intro w2 hw2
      rw [List.filter_append, hnone w2 (List.mem_cons_of_mem w hw2)]
      have hbeq : ((savedRecord now nid w).city == w2.city) = false := by
        simp [savedRecord]
        intro he
        exact hv (he ▸ List.mem_map.mpr ⟨w2, hw2, rfl⟩)
      simp [List.filter_cons, hbeq]
    rw [ih (db ++ [savedRecord now nid w]) now (nid + 1) hndrest hnone2]
    simp [insertedRecords, Nat.add_comm]

theorem saveLoop_all_fresh (obs : List FetchedWeather) :
    ∀ (db : List WeatherData) (now : ℚ) (nid : ℕ),
      (∀ w ∈ obs,
        (is_data_fresh (Except.ok (lastRecordIn db w.city)) now 30).1 = true) →
      saveLoop now (obs.map some) db nid = (db, (0, obs.length)) := by
  induction obs with
  | nil => intro db now nid _; rfl
  | cons w rest ih =>
    intro db now nid hall
    have hstep : saveLoop now ((w :: rest).map some) db nid =
        (let out := save_weather_data db now nid w.city w.temperature
          (some w.humidity) (some w.pressure) w.description
          (some w.wind_speed) (some w.clouds) (some 30) true true
        let acc := saveLoop now (rest.map some) out.1 (nid + 1)
        (acc.1, ((if out.2.saved then 1 else 0) + acc.2.1,
                 (if out.2.skipped then 1 else 0) + acc.2.2))) := rfl
    rw [hstep,
      save_weather_data_skips_obs db now nid w (hall w (List.mem_cons_self w rest))]
    dsimp only
    rw [ih db now (nid + 1) (fun w2 hw2 => hall w2 (List.mem_cons_of_mem w hw2))]
    simp [Nat.add_comm]

/-! ## Claim theorems -/

/-- C2, counterexample.  The claim says a success payload missing wind.speed
and clouds.all yields an observation in which those fields are absent,
distinct from the numeric value zero.  In fact fetch_city_weather defaults
both to 0, so a payload missing them produces the very same observation as a
payload reporting zero wind speed and zero cloud cover, and the produced
wind_speed is the number 0, not an absent marker. -/
theorem c2_absent_collapses_to_zero :
    fetch_city_weather "Moscow,ru" 0
        (HttpOutcome.ok ⟨10, 50, 1000, "clear sky", none, none⟩) =
      fetch_city_weather "Moscow,ru" 0
        (HttpOutcome.ok ⟨10, 50, 1000, "clear sky", some 0, some 0⟩) ∧
    (fetch_city_weather "Moscow,ru" 0
        (HttpOutcome.ok ⟨10, 50, 1000, "clear sky", none, none⟩)).map
        (fun w => w.wind_speed) = some 0 :=
  ⟨rfl, rfl⟩

/-- C2, amended: on a success payload in which wind.speed or clouds.all is
missing, fetch_city_weather produces an observation carrying the numeric
value 0 for the missing field (dict.get default), indistinguishable from a
reported zero. -/
theorem c2_missing_fields_default_to_zero (city : String) (now : ℚ)
    (data : OWMResponse) (hw : data.wind_speed = none)
    (hc : data.clouds_all = none) :
    ∃ w, fetch_city_weather city now (HttpOutcome.ok data) = some w ∧
      w.wind_speed = 0 ∧ w.clouds = 0 := by
  refine ⟨_, rfl, ?_, ?_⟩ <;> simp [hw, hc]

theorem c2_missing_fields_default_to_zero_witness :
    ∃ w, fetch_city_weather "Moscow,ru" 0
        (HttpOutcome.ok ⟨10, 50, 1000, "clear sky", none, none⟩) = some w ∧
      w.wind_speed = 0 ∧ w.clouds = 0 :=
  c2_missing_fields_default_to_zero "Moscow,ru" 0
    ⟨10, 50, 1000, "clear sky", none, none⟩ rfl rfl

/-- C3, counterexample.  The claim says fetch_all_cities_async returns both
the successes and a mapping from entity key to failure.  It returns only the
successful dicts: with one city whose fetch times out the result is the same
as for no cities at all, so the failure is not attributable (it is not in the
return value at all). -/
theorem c3_failures_not_returned :
    fetch_all_cities_async ["Moscow,ru"] 0 (fun _ => HttpOutcome.timeout) =
      fetch_all_cities_async [] 0 (fun _ => HttpOutcome.timeout) ∧
    fetch_all_cities_async ["Moscow,ru"] 0 (fun _ => HttpOutcome.timeout) = [] :=
  ⟨rfl, rfl⟩

/-- C3, amended: fetch_all_cities_async returns exactly the successful
observations (an observation is in the output iff the fetch of some input city
produced it); failed entities leave no trace in the return value, so a run in
which every fetch fails returns the empty list. -/
theorem c3_returns_exactly_successes (cities : List String) (now : ℚ)
    (net : String → HttpOutcome) :
    (∀ w, w ∈ fetch_all_cities_async cities now net ↔
        ∃ c, c ∈ cities ∧ fetch_city_weather c now (net c) = some w) ∧
    ((∀ c ∈ cities, fetch_city_weather c now (net c) = none) →
        fetch_all_cities_async cities now net = []) := by
  constructor
  · intro w
    simp only [fetch_all_cities_async, List.mem_filterMap, List.mem_map, id_eq]
    constructor
    · rintro ⟨o, ⟨c, hc, rfl⟩, ho⟩
      exact ⟨c, hc, ho⟩
    · rintro ⟨c, hc, hw⟩
      exact ⟨some w, ⟨c, hc, hw⟩, rfl⟩
  · intro hall
    simp only [fetch_all_cities_async, List.filterMap_eq_nil_iff, List.mem_map, id_eq]
    rintro o ⟨c, hc, rfl⟩
    exact hall c hc

theorem c3_returns_exactly_successes_witness :
    (∀ w, w ∈ fetch_all_cities_async ["Moscow,ru"] 0
            (fun _ => HttpOutcome.timeout) ↔
        ∃ c, c ∈ (["Moscow,ru"] : List String) ∧
          fetch_city_weather c 0 HttpOutcome.timeout = some w) ∧
    ((∀ c ∈ (["Moscow,ru"] : List String),
        fetch_city_weather c 0 HttpOutcome.timeout = none) →
      fetch_all_cities_async ["Moscow,ru"] 0 (fun _ => HttpOutcome.timeout) = []) :=
  c3_returns_exactly_successes ["Moscow,ru"] 0 (fun _ => HttpOutcome.timeout)

/-- C7, counterexample.  The claim says that on a failed most-recent read the
gate ACCEPTs only under an explicit caller opt-in, and otherwise propagates
the failure as a run-level error for the entity.  The code has no opt-in
parameter and propagates nothing: get_last_weather_record swallows the
exception and returns None, so is_data_fresh on a read error returns the
ACCEPT triple (False, None, None), identical to the no-record case. -/
theorem c7_read_failure_silently_accepts :
    is_data_fresh (Except.error "connection refused") 0 30 =
      (false, none, none) ∧
    is_data_fresh (Except.error "connection refused") 0 30 =
      is_data_fresh (Except.ok none) 0 30 :=
  ⟨rfl, rfl⟩

/-- C7, amended: on a most-recent read failure the gate unconditionally fails
open — for every error and every clock/threshold it returns the same ACCEPT
triple (False, None, None) as when no record exists; there is no opt-in flag
and the failure never propagates. -/
theorem c7_read_failure_fail_open (e : String) (now minAge : ℚ) :
    is_data_fresh (Except.error e) now minAge = (false, none, none) ∧
    is_data_fresh (Except.error e) now minAge =
      is_data_fresh (Except.ok none) now minAge :=
  ⟨rfl, rfl⟩

/-- C9, confirmed: a most recent record with a NULL created_at makes
is_data_fresh return (False, None, None), exactly as when no record exists,
so the gate ACCEPTs and neither the stale record nor an age is reported. -/
theorem c9_null_created_at_like_no_record (r : WeatherData) (now minAge : ℚ)
    (h : r.created_at = none) :
    is_data_fresh (Except.ok (some r)) now minAge = (false, none, none) ∧
    is_data_fresh (Except.ok (some r)) now minAge =
      is_data_fresh (Except.ok none) now minAge := by
  simp [is_data_fresh, get_last_weather_record, h]

theorem c9_null_created_at_like_no_record_witness :
    is_data_fresh (Except.ok (some
        { id := 1, city := "Moscow,ru", temperature := 10, humidity := some 50,
          pressure := some 1000, description := "clear sky", wind_speed := some 0,
          clouds := some 0, created_at := none })) 0 30 = (false, none, none) ∧
    is_data_fresh (Except.ok (some
        { id := 1, city := "Moscow,ru", temperature := 10, humidity := some 50,
          pressure := some 1000, description := "clear sky", wind_speed := some 0,
          clouds := some 0, created_at := none })) 0 30 =
      is_data_fresh (Except.ok none) 0 30 :=
  c9_null_created_at_like_no_record
    { id := 1, city := "Moscow,ru", temperature := 10, humidity := some 50,
      pressure := some 1000, description := "clear sky", wind_speed := some 0,
      clouds := some 0, created_at := none } 0 30 rfl

/-- C10, confirmed: whatever the table state, clock, payload and commit
outcome, save_weather_task reports status success for the entity — the
returned dict of save_weather_data always has five keys, so its truthiness
test is always true, including when the result records reason error (commit
failed) or skipped_fresh (nothing saved). -/
theorem c10_task_always_reports_success (db : List WeatherData) (now : ℚ)
    (nid : ℕ) (wd : CeleryWeatherInput) (commitOk : Bool) :
    save_weather_task db now nid wd commitOk =
      [("status", PyVal.str "success"), ("city", PyVal.str wd.city)] :=
  rfl

/-- C1, confirmed: with skip_if_fresh on and an explicit threshold, the
freshness gate and the skip branch of save_weather_data ACCEPT (save) when no
prior record is stored for the key; with a stored record of age
a = (now - created_at)/60 minutes they SKIP carrying that age when
a < min_age_minutes and ACCEPT when min_age_minutes <= a, the strict
inequality deciding the boundary. -/
theorem c1_freshness_gate (db : List WeatherData) (now minAge : ℚ) (nid : ℕ)
    (city desc : String) (temp : ℚ) (hum pres : Option ℤ) (ws : Option ℚ)
    (cl : Option ℤ) :
    (lastRecordIn db city = none →
      (save_weather_data db now nid city temp hum pres desc ws cl (some minAge)
          true true).2 =
        { saved := true, skipped := false, reason := "saved",
          age_minutes := none, message := "saved to db" }) ∧
    (∀ r t, lastRecordIn db city = some r → r.created_at = some t →
      (((now - t) / 60 < minAge →
        (save_weather_data db now nid city temp hum pres desc ws cl (some minAge)
            true true).2 =
          { saved := false, skipped := true, reason := "skipped_fresh",
            age_minutes := some ((now - t) / 60),
            message := "skipped: last record is fresh" }) ∧
      (minAge ≤ (now - t) / 60 →
        (save_weather_data db now nid city temp hum pres desc ws cl (some minAge)
            true true).2 =
          { saved := true, skipped := false, reason := "saved",
            age_minutes := none, message := "saved to db" }))) := by
  refine ⟨?_, ?_⟩
  · intro h
    simp [save_weather_data, is_data_fresh, get_last_weather_record, h]
  · intro r t hr ht
    refine ⟨?_, ?_⟩
    · intro hlt
      simp [save_weather_data, is_data_fresh, get_last_weather_record, hr, ht, hlt]
    · intro hge
      simp [save_weather_data, is_data_fresh, get_last_weather_record, hr, ht,
        not_lt.mpr hge]

theorem c1_freshness_gate_witness :
    (save_weather_data [] 0 1 "Moscow,ru" 10 (some 50) (some 1000) "clear sky"
        (some 0) (some 0) (some 30) true true).2 =
      { saved := true, skipped := false, reason := "saved",
        age_minutes := none, message := "saved to db" } :=
  (c1_freshness_gate [] 0 30 1 "Moscow,ru" "clear sky" 10 (some 50) (some 1000)
      (some 0) (some 0)).1 rfl

/-- C6, confirmed: whenever the write branch of save_weather_data runs (the
gate is off or did not skip), either the commit succeeds and exactly the one
complete record is appended with the result reporting saved, or the commit
fails, the table is left unchanged (rollback) and the structured error result
is returned. -/
theorem c6_insert_all_or_nothing (db : List WeatherData) (now : ℚ) (nid : ℕ)
    (city desc : String) (temp : ℚ) (hum pres : Option ℤ) (ws : Option ℚ)
    (cl : Option ℤ) (minAge : Option ℚ) (skipf commitOk : Bool)
    (hwrite : skipf = false ∨
      (is_data_fresh (Except.ok (lastRecordIn db city)) now
        (minAge.getD MIN_AGE_MINUTES_ENV)).1 = false) :
    (commitOk = true →
      save_weather_data db now nid city temp hum pres desc ws cl minAge
          skipf commitOk =
        (db ++ [{ id := nid, city := city, temperature := round1 temp,
                  humidity := hum, pressure := pres, description := desc,
                  wind_speed := ws, clouds := cl, created_at := some now }],
         { saved := true, skipped := false, reason := "saved",
           age_minutes := none, message := "saved to db" })) ∧
    (commitOk = false →
      save_weather_data db now nid city temp hum pres desc ws cl minAge
          skipf commitOk =
        (db, { saved := false, skipped := false, reason := "error",
               age_minutes := none, message := "error while saving" })) := by
  have hcond : (skipf && (is_data_fresh (Except.ok (lastRecordIn db city)) now
      (minAge.getD MIN_AGE_MINUTES_ENV)).1) = false := by
    rcases hwrite with h | h <;> simp [h]
  refine ⟨?_, ?_⟩ <;> intro hc <;> simp [save_weather_data, hcond, hc]

theorem c6_insert_all_or_nothing_witness :
    save_weather_data [] 0 1 "Moscow,ru" 10 (some 50) (some 1000) "clear sky"
        (some 0) (some 0) none false true =
      ([{ id := 1, city := "Moscow,ru", temperature := round1 10,
          humidity := some 50, pressure := some 1000,
          description := "clear sky", wind_speed := some 0, clouds := some 0,
          created_at := some 0 }],
       { saved := true, skipped := false, reason := "saved",
         age_minutes := none, message := "saved to db" }) :=
  (c6_insert_all_or_nothing [] 0 1 "Moscow,ru" "clear sky" 10 (some 50)
      (some 1000) (some 0) (some 0) none false true (Or.inl rfl)).1 rfl

/-- C4, counterexample.  The claim says the coordinator returns a run summary
with counts saved, skipped and fetch-failed plus a per-entity outcome.  It
returns only the saved count: a run with one entity skipped as fresh and one
fetch-failed entry returns the bare number 0, identical to the return of a
run given no data at all, so neither the skipped count, the fetch-failed
count nor any per-entity outcome is in the return value. -/
theorem c4_summary_is_only_saved_count :
    save_results_to_db
        (some [some { city := "Moscow,ru", temperature := 10, humidity := 50,
                      pressure := 1000, description := "clear sky",
                      wind_speed := 0, clouds := 0, timestamp := 0 }, none])
        [{ id := 1, city := "Moscow,ru", temperature := 10, humidity := some 50,
           pressure := some 1000, description := "clear sky",
           wind_speed := some 0, clouds := some 0, created_at := some 0 }]
        0 2 =
      save_results_to_db none [] 0 2 ∧
    save_results_to_db none [] 0 2 = 0 := by
  refine ⟨?_, rfl⟩
  norm_num [save_results_to_db, saveLoop, save_weather_data, is_data_fresh,
    get_last_weather_record, lastRecordIn, pickLatest, strictlyLater,
    MIN_AGE_MINUTES_ENV, List.filter]

/-- C4, amended: save_results_to_db reports only the saved count — missing or
empty input returns 0 rather than raising, a non-empty list returns the
saved counter of the loop, and (commits succeeding) every processed entry is
either saved or skipped, so saved + skipped equals the number of successful
fetches; skipped and fetch-failed counts are printed, not returned. -/
theorem c4_returns_saved_count_only (now : ℚ) :
    (∀ db nid, save_results_to_db none db now nid = 0) ∧
    (∀ db nid, save_results_to_db (some []) db now nid = 0) ∧
    (∀ l db nid, save_results_to_db (some l) db now nid =
        (saveLoop now l db nid).2.1) ∧
    (∀ l db nid, (saveLoop now l db nid).2.1 + (saveLoop now l db nid).2.2 =
        l.countP (fun o => o.isSome)) := by
  refine ⟨fun db nid => rfl, fun db nid => rfl, ?_, ?_⟩
  · intro l db nid
    cases l with
    | nil => rfl
    | cons o rest => rfl
  · intro l
    induction l with
    | nil => intro db nid; rfl
    | cons o rest ih =>
      intro db nid
      cases o with
      | none => simpa [saveLoop] using ih db nid
      | some w =>
        have hstep : saveLoop now (some w :: rest) db nid =
            (let out := save_weather_data db now nid w.city w.temperature
              (some w.humidity) (some w.pressure) w.description
              (some w.wind_speed) (some w.clouds) (some 30) true true
            let acc := saveLoop now rest out.1 (nid + 1)
            (acc.1, ((if out.2.saved then 1 else 0) + acc.2.1,
                     (if out.2.skipped then 1 else 0) + acc.2.2))) := rfl
        rw [hstep]
        by_cases hf : (is_data_fresh (Except.ok (lastRecordIn db w.city)) now
            ((some (30:ℚ)).getD MIN_AGE_MINUTES_ENV)).1 = true
        · rw [save_weather_data_skips db now nid w.city w.description
            w.temperature (some w.humidity) (some w.pressure)
            (some w.wind_speed) (some w.clouds) (some 30) hf]
          have hrest := ih db (nid + 1)
          simp [List.countP_cons]
          omega
        · rw [save_weather_data_inserts db now nid w.city w.description
            w.temperature (some w.humidity) (some w.pressure)
            (some w.wind_speed) (some w.clouds) (some 30) (by simpa using hf)]
          have hrest := ih (db ++
            [({ id := nid, city := w.city, temperature := round1 w.temperature,
                humidity := some w.humidity, pressure := some w.pressure,
                description := w.description, wind_speed := some w.wind_speed,
                clouds := some w.clouds,
                created_at := some now } : WeatherData)]) (nid + 1)
          simp [List.countP_cons]
          omega

/-- C5, confirmed (idempotence across two runs): over an empty table, a run of
the coordinator loop on K successfully fetched entities with pairwise distinct
keys saves all K with none skipped, and running the very same loop again
immediately afterwards (elapsed time below the 30-minute threshold,
skip_if_fresh on) saves none and skips all K. -/
theorem c5_second_run_skips_all (obs : List FetchedWeather) (now1 now2 : ℚ)
    (nid : ℕ) (hnd : (obs.map (fun w => w.city)).Nodup)
    (hage : (now2 - now1) / 60 < 30) :
    (saveLoop now1 (obs.map some) [] nid).2.1 = obs.length ∧
    (saveLoop now1 (obs.map some) [] nid).2.2 = 0 ∧
    (saveLoop now2 (obs.map some)
      (saveLoop now1 (obs.map some) [] nid).1 nid).2.1 = 0 ∧
    (saveLoop now2 (obs.map some)
      (saveLoop now1 (obs.map some) [] nid).1 nid).2.2 = obs.length := by
  have h1 : saveLoop now1 (obs.map some) [] nid =
      (insertedRecords now1 nid obs, (obs.length, 0)) := by
    have h := saveLoop_no_prior obs [] now1 nid hnd (fun w _ => rfl)
    simpa using h
  have h2 : saveLoop now2 (obs.map some) (insertedRecords now1 nid obs) nid =
      (insertedRecords now1 nid obs, (0, obs.length)) := by
    apply saveLoop_all_fresh
    intro w hw
    obtain ⟨r, hfil, hcre⟩ := insertedRecords_filter_single obs now1 nid w hw hnd
    rw [lastRecordIn_of_filter_single _ _ _ hfil]
    simp [is_data_fresh, get_last_weather_record, hcre, hage]
  rw [h1]
  refine ⟨rfl, rfl, ?_, ?_⟩ <;> simp [h2]

theorem c5_second_run_skips_all_witness :
    (saveLoop 0 ([sampleFetched].map some) [] 1).2.1 = [sampleFetched].length ∧
    (saveLoop 0 ([sampleFetched].map some) [] 1).2.2 = 0 ∧
    (saveLoop 0 ([sampleFetched].map some)
      (saveLoop 0 ([sampleFetched].map some) [] 1).1 1).2.1 = 0 ∧
    (saveLoop 0 ([sampleFetched].map some)
      (saveLoop 0 ([sampleFetched].map some) [] 1).1 1).2.2 =
        [sampleFetched].length :=
  c5_second_run_skips_all [sampleFetched] 0 0 1 (by simp) (by simp)
